import Mathlib

/-!
Shallow embedding of `dataset_generation.py`, the synthetic India-wide
renovation-cost dataset generator.

Numbers are modelled over `ℚ`: the script computes with Python floats, but all
of its constants are exact decimals, and every claim below is about the exact
arithmetic the source spells out.  Every random draw made by the script is an
explicit field of the `Draws` oracle structure; `Draws.Valid` states that each
draw lies in the set the corresponding `random.uniform` / `random.random` /
`random.choice` / `random.choices` call samples from (with exact arithmetic,
`random.uniform a b = a + (b - a) * random.random()` lies in `[a, b)`, and a
choice from a list is an index below its length).  The seeded global PRNG is
modelled as a function from the seed to the per-row draw oracle.
-/

/-- Python's builtin `round` with no digits argument: round half to even,
returning an integer. -/
def pyRound (q : ℚ) : ℤ :=
  if q - ⌊q⌋ < 1/2 then ⌊q⌋
  else if 1/2 < q - ⌊q⌋ then ⌊q⌋ + 1
  else if ⌊q⌋ % 2 = 0 then ⌊q⌋ else ⌊q⌋ + 1

/-- Python's `round(x, 2)`: round half to even at two decimal places. -/
def pyRound2 (q : ℚ) : ℚ := (pyRound (q * 100) : ℚ) / 100

/-- Python's `round(x, 3)`: round half to even at three decimal places. -/
def pyRound3 (q : ℚ) : ℚ := (pyRound (q * 1000) : ℚ) / 1000

/-- Python's `int(...)` on a float: truncation toward zero. -/
def pyInt (q : ℚ) : ℤ := if 0 ≤ q then ⌊q⌋ else ⌈q⌉

/-- Line 17: `N_ROWS = 10000`. -/
def N_ROWS : ℕ := 10000

/-- Line 18: `AS_OF_DATE = "2025-09-07"`. -/
def AS_OF_DATE : String := "2025-09-07"

/-- Line 19: `INCLUDE_GST = True`. -/
def INCLUDE_GST : Bool := true

/-- Line 20: `GST_RATE = 0.18`. -/
def GST_RATE : ℚ := 0.18

/-- Line 23: `MATERIAL_PRICE_INDEX = 1.00`. -/
def MATERIAL_PRICE_INDEX : ℚ := 1.00

/-- One entry of the `cities` dict (lines 30-57): tier, regional multiplier and
the labor day-rate range. -/
structure CityInfo where
  tier : String
  multiplier : ℚ
  laborMin : ℚ
  laborMax : ℚ

/-- Lines 30-57: the `cities` dict, in insertion order (Python dicts preserve
insertion order, and `city_names = list(cities.keys())` depends on it). -/
def cities : List (String × CityInfo) :=
  [("Delhi",      ⟨"Metro",  1.20, 750, 900⟩),
   ("Mumbai",     ⟨"Metro",  1.30, 800, 950⟩),
   ("Bangalore",  ⟨"Metro",  1.25, 750, 900⟩),
   ("Hyderabad",  ⟨"Metro",  1.15, 700, 850⟩),
   ("Chennai",    ⟨"Metro",  1.10, 650, 800⟩),
   ("Kolkata",    ⟨"Metro",  1.00, 600, 750⟩),
   ("Pune",       ⟨"Metro",  1.20, 700, 850⟩),
   ("Ahmedabad",  ⟨"Metro",  1.05, 600, 750⟩),
   ("Lucknow",    ⟨"Tier-2", 0.92, 500, 650⟩),
   ("Jaipur",     ⟨"Tier-2", 0.95, 550, 700⟩),
   ("Indore",     ⟨"Tier-2", 0.96, 550, 700⟩),
   ("Surat",      ⟨"Tier-2", 1.00, 550, 700⟩),
   ("Nagpur",     ⟨"Tier-2", 0.95, 520, 680⟩),
   ("Vadodara",   ⟨"Tier-2", 0.98, 550, 700⟩),
   ("Coimbatore", ⟨"Tier-2", 0.95, 520, 660⟩),
   ("Bhopal",     ⟨"Tier-2", 0.93, 500, 640⟩),
   ("Chandigarh", ⟨"Tier-2", 1.02, 600, 750⟩),
   ("Patna",      ⟨"Tier-3", 0.88, 450, 600⟩),
   ("Ranchi",     ⟨"Tier-3", 0.90, 480, 620⟩),
   ("Guwahati",   ⟨"Tier-3", 0.92, 500, 640⟩),
   ("Kanpur",     ⟨"Tier-3", 0.90, 480, 620⟩),
   ("Varanasi",   ⟨"Tier-3", 0.90, 480, 620⟩),
   ("Mysuru",     ⟨"Tier-3", 0.94, 520, 660⟩)]

/-- Line 59: `city_names = list(cities.keys())`. -/
def city_names : List String := cities.map Prod.fst

/-- Fallback for a missed dict lookup.  In the script `cities[city]` is only
ever called with a key of the dict (the chosen city name), so this value is
unreachable under `Draws.Valid`. -/
def cityFallback : CityInfo := ⟨"Metro", 1, 600, 750⟩

/-- Association-list lookup, the model of a Python dict access `tbl[k]` (all
the dicts of the script have distinct keys). -/
def alist_get {β : Type} : List (String × β) → String → Option β
  | [], _ => none
  | (a, b) :: t, k => if k = a then some b else alist_get t k

/-- Dict access `cities[k]` as a total function. -/
def lookupCity (k : String) : CityInfo := (alist_get cities k).getD cityFallback

/-- Line 64: `room_types`. -/
def room_types : List String :=
  ["Bedroom", "Living Room", "Kitchen", "Bathroom", "Dining", "Study", "Kids Room"]

/-- Lines 66-70: `renovation_levels`, each mapped to its `labor_overhead`
range. -/
def renovation_levels : List (String × (ℚ × ℚ)) :=
  [("Basic", (0.10, 0.15)), ("Mid", (0.15, 0.25)), ("Luxury", (0.25, 0.35))]

/-- Key order of `renovation_levels` (the script chooses uniformly from
`list(renovation_levels.keys())`). -/
def renovation_level_names : List String := renovation_levels.map Prod.fst

/-- Lines 73-78: `quality_tiers`, quality name to multiplicative factor. -/
def quality_tiers : List (String × ℚ) :=
  [("Economy", 0.90), ("Standard", 1.00), ("Premium", 1.20), ("Luxury", 1.40)]

/-- Dict access `quality_tiers[k]` as a total function (every key used by the
script is one of the four names). -/
def quality_factor (k : String) : ℚ := (alist_get quality_tiers k).getD 0

/-- Line 87: `painting_psf = (18, 35)`. -/
def painting_psf : ℚ × ℚ := (18, 35)

/-- Lines 90-98: `flooring_catalog`, flooring type to base price range. -/
def flooring_catalog : List (String × (ℚ × ℚ)) :=
  [("Vitrified_Tile", (90, 200)),
   ("Ceramic_Tile", (80, 160)),
   ("Wood_Laminate", (140, 260)),
   ("Engineered_Wood", (220, 380)),
   ("Marble", (350, 900)),
   ("Granite", (220, 450)),
   ("Epoxy", (60, 160))]

/-- Lines 101-105: `ceiling_catalog`. -/
def ceiling_catalog : List (String × (ℚ × ℚ)) :=
  [("POP", (90, 160)), ("Gypsum", (120, 220)), ("Grid", (100, 180))]

/-- Line 108: `electrical_psf = (70, 160)`. -/
def electrical_psf : ℚ × ℚ := (70, 160)

/-- Line 111: `plumbing_per_bath = (40000, 95000)`. -/
def plumbing_per_bath : ℚ × ℚ := (40000, 95000)

/-- Line 112: `plumbing_per_kitchen = (25000, 60000)`. -/
def plumbing_per_kitchen : ℚ × ℚ := (25000, 60000)

/-- Lines 115-120: `kitchen_packages`. -/
def kitchen_packages : List (String × (ℚ × ℚ)) :=
  [("Basic_L", (120000, 250000)),
   ("Standard_L", (180000, 350000)),
   ("Premium_U", (300000, 600000)),
   ("Luxury_Island", (500000, 1200000))]

/-- Lines 123-127: `bathroom_packages`. -/
def bathroom_packages : List (String × (ℚ × ℚ)) :=
  [("Basic", (70000, 130000)),
   ("Standard", (120000, 220000)),
   ("Premium", (200000, 400000))]

/-- Lines 130-135: `furniture_room`. -/
def furniture_room : List (String × (ℚ × ℚ)) :=
  [("None", (0, 0)),
   ("Basic", (30000, 80000)),
   ("Standard", (80000, 180000)),
   ("Premium", (180000, 500000))]

/-- Lines 139-144: the `productivity` ranges, one per labor category. -/
def productivity_painting : ℚ × ℚ := (180, 280)

/-- Productivity range for the `flooring` labor category (line 142). -/
def productivity_flooring : ℚ × ℚ := (90, 160)

/-- Productivity range for the `ceiling` labor category (line 143). -/
def productivity_ceiling : ℚ × ℚ := (120, 180)

/-- Productivity range for the `electrical` labor category (line 144). -/
def productivity_electrical : ℚ × ℚ := (150, 240)

/-- Generic range/tuple lookup `tbl[k]`, used for the price-range dicts. -/
def lookupRange (tbl : List (String × (ℚ × ℚ))) (k : String) : ℚ × ℚ :=
  (alist_get tbl k).getD (0, 0)

/-- One row's worth of random draws, in the oracle model: each field records
the result of one of the `random.*` calls `generate_row` can make.  Index
fields record `random.choice` / `random.choices` selections, `...U` and base
fields record `random.random()` / `random.uniform(a, b)` results. -/
structure Draws where
  cityIdx : ℕ
  roomIdx : ℕ
  areaU : ℚ
  levelIdx : ℕ
  overheadU : ℚ
  paintQIdx : ℕ
  floorQIdx : ℕ
  ceilQIdx : ℕ
  paintBase : ℚ
  paintDayRate : ℚ
  paintProd : ℚ
  floorTypeIdx : ℕ
  floorBase : ℚ
  floorDayRate : ℚ
  floorProd : ℚ
  ceilFlagU : ℚ
  ceilTypeIdx : ℕ
  ceilFrac : ℚ
  ceilBase : ℚ
  ceilDayRate : ℚ
  ceilProd : ℚ
  elecFlagU : ℚ
  elecBase : ℚ
  elecDayRate : ℚ
  elecProd : ℚ
  kitchenPkgIdx : ℕ
  kitchenQIdx : ℕ
  kitchenBase : ℚ
  bathPkgIdx : ℕ
  bathQIdx : ℕ
  bathBase : ℚ
  plumbKitchenBase : ℚ
  plumbBathBase : ℚ
  furnIdx : ℕ
  furnBase : ℚ
  wastageU : ℚ

/-- Lines 158-159, `choose_quality`: a weighted choice over the four quality
tier names; the oracle supplies the chosen index. -/
def choose_quality (i : ℕ) : String :=
  (quality_tiers.map Prod.fst).getD i "Economy"

/-- Lines 161-169, `choose_flooring_type`: the candidate list depends on the
room type. -/
def flooring_choices (room_type : String) : List String :=
  if room_type = "Kitchen" ∨ room_type = "Bathroom" then
    ["Ceramic_Tile", "Vitrified_Tile", "Granite"]
  else flooring_catalog.map Prod.fst

/-- Lines 161-169, `choose_flooring_type` with the oracle index. -/
def choose_flooring_type (room_type : String) (i : ℕ) : String :=
  (flooring_choices room_type).getD i "Ceramic_Tile"

/-- Lines 171-172, `choose_ceiling_type`: uniform choice among the ceiling
catalog keys. -/
def choose_ceiling_type (i : ℕ) : String :=
  (ceiling_catalog.map Prod.fst).getD i "POP"

/-- Lines 174-177, `choose_furniture_level`. -/
def choose_furniture_level (room_type : String) (i : ℕ) : String :=
  if room_type = "Kitchen" ∨ room_type = "Bathroom" then "None"
  else ["None", "Basic", "Standard", "Premium"].getD i "None"

/-- Lines 179-184, `kitchen_package_by_level`. -/
def kitchen_package_by_level (renov_level : String) (i : ℕ) : String :=
  if renov_level = "Basic" then "Basic_L"
  else if renov_level = "Mid" then ["Basic_L", "Standard_L"].getD i "Basic_L"
  else ["Standard_L", "Premium_U", "Luxury_Island"].getD i "Standard_L"

/-- Lines 186-191, `bathroom_package_by_level`. -/
def bathroom_package_by_level (renov_level : String) (i : ℕ) : String :=
  if renov_level = "Basic" then "Basic"
  else if renov_level = "Mid" then ["Basic", "Standard"].getD i "Basic"
  else ["Standard", "Premium"].getD i "Standard"

/-- Lines 193-195, `psf_cost`: the uniform base draw (supplied by the oracle
as `base`) scaled by quality factor, city multiplier and the price index. -/
def psf_cost (base qual_factor city_mult : ℚ) : ℚ :=
  base * qual_factor * city_mult * MATERIAL_PRICE_INDEX

/-- Lines 197-199, `unit_cost`: identical formula to `psf_cost`. -/
def unit_cost (base qual_factor city_mult : ℚ) : ℚ :=
  base * qual_factor * city_mult * MATERIAL_PRICE_INDEX

/-- Lines 201-216, `labor_component_cost`: the drawn day rate times
`max(1.0, area / sqft_per_day)`.  The category argument of the source only
selects which productivity range the `sqft_per_day` draw is taken from; that
range constraint lives in `Draws.Valid`. -/
def labor_component_cost (area_sqft day_rate sqft_per_day : ℚ) : ℚ :=
  day_rate * max 1 (area_sqft / sqft_per_day)

/-- Line 222: `city = random.choice(city_names)`. -/
def row_city_name (d : Draws) : String := city_names.getD d.cityIdx "Delhi"

/-- Line 223: `cinfo = cities[city]`. -/
def row_cinfo (d : Draws) : CityInfo := lookupCity (row_city_name d)

/-- Line 225: `city_mult = cinfo["multiplier"]`. -/
def row_city_mult (d : Draws) : ℚ := (row_cinfo d).multiplier

/-- Line 226: `room_type = random.choice(room_types)`. -/
def row_room_type (d : Draws) : String := room_types.getD d.roomIdx "Bedroom"

/-- Line 227: `area = int(rand_range(70, 550))`. -/
def row_area (d : Draws) : ℤ := pyInt d.areaU

/-- Line 228: `renov_level = random.choice(list(renovation_levels.keys()))`. -/
def row_renov_level (d : Draws) : String :=
  renovation_level_names.getD d.levelIdx "Basic"

/-- The `labor_overhead` range of the chosen renovation level (line 229). -/
def row_overhead_range (d : Draws) : ℚ × ℚ :=
  (alist_get renovation_levels (row_renov_level d)).getD (0, 0)

/-- Line 229: `labor_overhead_pct = round(rand_range(*...), 3)`. -/
def row_labor_overhead_pct (d : Draws) : ℚ := pyRound3 d.overheadU

/-- Line 232: `paint_quality = choose_quality()`. -/
def row_paint_quality (d : Draws) : String := choose_quality d.paintQIdx

/-- Line 233: `floor_quality = choose_quality()`. -/
def row_floor_quality (d : Draws) : String := choose_quality d.floorQIdx

/-- Line 234: `ceiling_quality = choose_quality()`. -/
def row_ceiling_quality (d : Draws) : String := choose_quality d.ceilQIdx

/-- Line 237: `painting_rate_psf = psf_cost(painting_psf, ...)`. -/
def painting_rate_psf (d : Draws) : ℚ :=
  psf_cost d.paintBase (quality_factor (row_paint_quality d)) (row_city_mult d)

/-- Line 238: `painting_material_cost = painting_rate_psf * area`. -/
def painting_material_cost (d : Draws) : ℚ :=
  painting_rate_psf d * (row_area d : ℚ)

/-- Line 239: `painting_labor_cost = labor_component_cost(area, cinfo,
"painting")`. -/
def painting_labor_cost (d : Draws) : ℚ :=
  labor_component_cost (row_area d : ℚ) d.paintDayRate d.paintProd

/-- Line 242: `floor_type = choose_flooring_type(room_type)`. -/
def row_floor_type (d : Draws) : String :=
  choose_flooring_type (row_room_type d) d.floorTypeIdx

/-- Line 243: `floor_rate_psf = psf_cost(flooring_catalog[floor_type], ...)`. -/
def floor_rate_psf (d : Draws) : ℚ :=
  psf_cost d.floorBase (quality_factor (row_floor_quality d)) (row_city_mult d)

/-- Line 244: `flooring_material_cost = floor_rate_psf * area`. -/
def flooring_material_cost (d : Draws) : ℚ :=
  floor_rate_psf d * (row_area d : ℚ)

/-- Line 245: `flooring_labor_cost = labor_component_cost(area, cinfo,
"flooring")`. -/
def flooring_labor_cost (d : Draws) : ℚ :=
  labor_component_cost (row_area d : ℚ) d.floorDayRate d.floorProd

/-- Line 248: `has_ceiling = (room_type != "Bathroom") and (random.random() <
0.65)`. -/
def row_has_ceiling (d : Draws) : Bool :=
  if row_room_type d ≠ "Bathroom" ∧ d.ceilFlagU < (0.65 : ℚ) then true else false

/-- Line 249: `ceiling_type = choose_ceiling_type() if has_ceiling else
"None"`. -/
def row_ceiling_type (d : Draws) : String :=
  if row_has_ceiling d then choose_ceiling_type d.ceilTypeIdx else "None"

/-- Line 250: `ceiling_area = int(area * rand_range(0.8, 1.05)) if has_ceiling
else 0`. -/
def row_ceiling_area (d : Draws) : ℤ :=
  if row_has_ceiling d then pyInt ((row_area d : ℚ) * d.ceilFrac) else 0

/-- Line 251: `ceiling_rate_psf = psf_cost(ceiling_catalog[ceiling_type], ...)
if has_ceiling else 0.0`. -/
def ceiling_rate_psf (d : Draws) : ℚ :=
  if row_has_ceiling d then
    psf_cost d.ceilBase (quality_factor (row_ceiling_quality d)) (row_city_mult d)
  else 0

/-- Line 252: `ceiling_material_cost = ceiling_rate_psf * ceiling_area`. -/
def ceiling_material_cost (d : Draws) : ℚ :=
  ceiling_rate_psf d * (row_ceiling_area d : ℚ)

/-- Line 253: `ceiling_labor_cost = labor_component_cost(ceiling_area, cinfo,
"ceiling") if has_ceiling else 0.0`. -/
def ceiling_labor_cost (d : Draws) : ℚ :=
  if row_has_ceiling d then
    labor_component_cost (row_ceiling_area d : ℚ) d.ceilDayRate d.ceilProd
  else 0

/-- Line 256: the per-level electrical probability dict literal. -/
def electrical_prob (renov_level : String) : ℚ :=
  (alist_get ([("Basic", 0.4), ("Mid", 0.65), ("Luxury", 0.9)] :
      List (String × ℚ)) renov_level).getD 0

/-- Line 256: `has_electrical = random.random() < {...}[renov_level]`. -/
def row_has_electrical (d : Draws) : Bool :=
  if d.elecFlagU < electrical_prob (row_renov_level d) then true else false

/-- Line 257: `electrical_rate_psf = psf_cost(electrical_psf, 1.0, city_mult)
if has_electrical else 0.0`. -/
def electrical_rate_psf (d : Draws) : ℚ :=
  if row_has_electrical d then psf_cost d.elecBase 1 (row_city_mult d) else 0

/-- Line 258: `electrical_material_cost = electrical_rate_psf * area`. -/
def electrical_material_cost (d : Draws) : ℚ :=
  electrical_rate_psf d * (row_area d : ℚ)

/-- Line 259: `electrical_labor_cost = labor_component_cost(area, cinfo,
"electrical") if has_electrical else 0.0`. -/
def electrical_labor_cost (d : Draws) : ℚ :=
  if row_has_electrical d then
    labor_component_cost (row_area d : ℚ) d.elecDayRate d.elecProd
  else 0

/-- Lines 262-266: the kitchen package name, `"None"` unless the room is a
kitchen. -/
def row_kitchen_pkg_name (d : Draws) : String :=
  if row_room_type d = "Kitchen" then
    kitchen_package_by_level (row_renov_level d) d.kitchenPkgIdx
  else "None"

/-- Lines 262-266: the kitchen package cost, `0.0` unless the room is a
kitchen. -/
def kitchen_pkg_cost (d : Draws) : ℚ :=
  if row_room_type d = "Kitchen" then
    unit_cost d.kitchenBase (quality_factor (choose_quality d.kitchenQIdx))
      (row_city_mult d)
  else 0

/-- Lines 269-273: the bathroom package name. -/
def row_bath_pkg_name (d : Draws) : String :=
  if row_room_type d = "Bathroom" then
    bathroom_package_by_level (row_renov_level d) d.bathPkgIdx
  else "None"

/-- Lines 269-273: the bathroom package cost. -/
def bath_pkg_cost (d : Draws) : ℚ :=
  if row_room_type d = "Bathroom" then
    unit_cost d.bathBase (quality_factor (choose_quality d.bathQIdx))
      (row_city_mult d)
  else 0

/-- Lines 276-280: plumbing add-ons, additive per wet-room flag. -/
def plumbing_cost (d : Draws) : ℚ :=
  (if row_room_type d = "Kitchen" then
      unit_cost d.plumbKitchenBase 1 (row_city_mult d) else 0) +
  (if row_room_type d = "Bathroom" then
      unit_cost d.plumbBathBase 1 (row_city_mult d) else 0)

/-- Line 283: `furniture_level = choose_furniture_level(room_type)`. -/
def row_furniture_level (d : Draws) : String :=
  choose_furniture_level (row_room_type d) d.furnIdx

/-- Lines 284-286: furniture cost, drawn only when the level is not
`"None"`. -/
def furniture_cost (d : Draws) : ℚ :=
  if row_furniture_level d ≠ "None" then
    unit_cost d.furnBase 1 (row_city_mult d)
  else 0

/-- Lines 289-292: `material_subtotal`, the sum of the eight material-side
components. -/
def material_subtotal (d : Draws) : ℚ :=
  painting_material_cost d + flooring_material_cost d + ceiling_material_cost d +
    electrical_material_cost d + kitchen_pkg_cost d + bath_pkg_cost d +
    plumbing_cost d + furniture_cost d

/-- Lines 293-294: `wastage_cost = material_subtotal * rand_range(0.05,
0.10)`. -/
def wastage_cost (d : Draws) : ℚ := material_subtotal d * d.wastageU

/-- Line 297: `labor_subtotal`, the sum of the four labor components. -/
def labor_subtotal (d : Draws) : ℚ :=
  painting_labor_cost d + flooring_labor_cost d + ceiling_labor_cost d +
    electrical_labor_cost d

/-- Line 298: `contractor_overhead = (material_subtotal + labor_subtotal) *
labor_overhead_pct`. -/
def contractor_overhead (d : Draws) : ℚ :=
  (material_subtotal d + labor_subtotal d) * row_labor_overhead_pct d

/-- Line 301: `subtotal_pre_tax`. -/
def subtotal_pre_tax (d : Draws) : ℚ :=
  material_subtotal d + wastage_cost d + labor_subtotal d + contractor_overhead d

/-- Line 304: `gst_amount = subtotal_pre_tax * GST_RATE if INCLUDE_GST else
0.0`. -/
def gst_amount (d : Draws) : ℚ :=
  if INCLUDE_GST then subtotal_pre_tax d * GST_RATE else 0

/-- Line 305: `grand_total = subtotal_pre_tax + gst_amount`. -/
def grand_total (d : Draws) : ℚ := subtotal_pre_tax d + gst_amount d

/-- Line 308: `total_psf = grand_total / max(1, area)`.  Note this uses the
pre-rounding `grand_total`. -/
def total_psf (d : Draws) : ℚ := grand_total d / max 1 ((row_area d : ℚ))

/-- The flat record returned by `generate_row` (lines 310-349), with the same
field names as the Python dict.  Costs rounded to whole rupees are integers;
`Total_Cost_per_Sqft` is rounded to two decimal places. -/
structure GeneratedRow where
  Row_ID : ℤ
  As_Of_Date : String
  Material_Price_Index : ℚ
  City : String
  City_Tier : String
  City_Multiplier : ℚ
  Labor_Day_Rate_Min : ℚ
  Labor_Day_Rate_Max : ℚ
  Room_Type : String
  Area_Sqft : ℤ
  Renovation_Level : String
  Paint_Quality : String
  Floor_Type : String
  Floor_Quality : String
  Ceiling_Type : String
  Ceiling_Quality : String
  Has_Electrical : Bool
  Furniture_Level : String
  Kitchen_Package : String
  Bathroom_Package : String
  Painting_Material_Cost : ℤ
  Painting_Labor_Cost : ℤ
  Flooring_Material_Cost : ℤ
  Flooring_Labor_Cost : ℤ
  Ceiling_Material_Cost : ℤ
  Ceiling_Labor_Cost : ℤ
  Electrical_Material_Cost : ℤ
  Electrical_Labor_Cost : ℤ
  Kitchen_Package_Cost : ℤ
  Bathroom_Package_Cost : ℤ
  Plumbing_Cost : ℤ
  Furniture_Cost : ℤ
  Wastage_Sundries_Cost : ℤ
  Contractor_Overhead_Cost : ℤ
  GST_Amount : ℤ
  Grand_Total : ℤ
  Total_Cost_per_Sqft : ℚ

/-- Lines 221-349, `generate_row`: one flat record from a row index and the
row's random draws. -/
def generate_row (idx : ℤ) (d : Draws) : GeneratedRow :=
  { Row_ID := idx
    As_Of_Date := AS_OF_DATE
    Material_Price_Index := MATERIAL_PRICE_INDEX
    City := row_city_name d
    City_Tier := (row_cinfo d).tier
    City_Multiplier := (row_cinfo d).multiplier
    Labor_Day_Rate_Min := (lookupCity (row_city_name d)).laborMin
    Labor_Day_Rate_Max := (lookupCity (row_city_name d)).laborMax
    Room_Type := row_room_type d
    Area_Sqft := row_area d
    Renovation_Level := row_renov_level d
    Paint_Quality := row_paint_quality d
    Floor_Type := row_floor_type d
    Floor_Quality := row_floor_quality d
    Ceiling_Type := row_ceiling_type d
    Ceiling_Quality := if row_has_ceiling d then row_ceiling_quality d else "None"
    Has_Electrical := row_has_electrical d
    Furniture_Level := row_furniture_level d
    Kitchen_Package := row_kitchen_pkg_name d
    Bathroom_Package := row_bath_pkg_name d
    Painting_Material_Cost := pyRound (painting_material_cost d)
    Painting_Labor_Cost := pyRound (painting_labor_cost d)
    Flooring_Material_Cost := pyRound (flooring_material_cost d)
    Flooring_Labor_Cost := pyRound (flooring_labor_cost d)
    Ceiling_Material_Cost := pyRound (ceiling_material_cost d)
    Ceiling_Labor_Cost := pyRound (ceiling_labor_cost d)
    Electrical_Material_Cost := pyRound (electrical_material_cost d)
    Electrical_Labor_Cost := pyRound (electrical_labor_cost d)
    Kitchen_Package_Cost := pyRound (kitchen_pkg_cost d)
    Bathroom_Package_Cost := pyRound (bath_pkg_cost d)
    Plumbing_Cost := pyRound (plumbing_cost d)
    Furniture_Cost := pyRound (furniture_cost d)
    Wastage_Sundries_Cost := pyRound (wastage_cost d)
    Contractor_Overhead_Cost := pyRound (contractor_overhead d)
    GST_Amount := pyRound (gst_amount d)
    Grand_Total := pyRound (grand_total d)
    Total_Cost_per_Sqft := pyRound2 (total_psf d) }

/-- Line 354: `rows = [generate_row(i) for i in range(1, N + 1)]`, for an
arbitrary row count `N` and a per-row draw oracle. -/
def run (N : ℕ) (gen : ℕ → Draws) : List GeneratedRow :=
  (List.range' 1 N).map fun i => generate_row (Int.ofNat i) (gen i)

/-- Line 354 with the configured row count `N_ROWS`. -/
def rows (gen : ℕ → Draws) : List GeneratedRow := run N_ROWS gen

/-- Python's `range(lo, hi)` over integers. -/
def pyRange (lo hi : ℤ) : List ℤ :=
  (List.range (hi - lo).toNat).map fun k => lo + (k : ℤ)

/-- Lines 352-355 as actually executed, with the row count as a possibly
non-positive integer and errors made explicit.  The module performs no
configuration validation and no statement on the path from import to `rows`
can raise with the shipped tables (the literal weight lists are positive, all
dict accesses use keys of the dicts, and `range(1, N + 1)` is simply empty for
non-positive `N`), so the run always returns its row list. -/
def runE (N : ℤ) (gen : ℕ → Draws) : Except String (List GeneratedRow) :=
  Except.ok ((pyRange 1 (N + 1)).map fun i => generate_row i (gen (Int.toNat i)))

/-- Lines 152-156, `pick_weighted`: defined by the script but never called by
`generate_row`; `random.choices` raises a `ValueError` when the total of the
weights is not positive, and otherwise selects the first key whose cumulative
weight share exceeds the unit draw. -/
def pick_weighted (tbl : List (String × ℚ)) (u : ℚ) : Except String String :=
  let total := (tbl.map Prod.snd).sum
  if total ≤ 0 then Except.error "Total of weights must be greater than zero"
  else
    match tbl.find? (fun p => decide (u * total ≤ p.2)) with
    | some p => Except.ok p.1
    | none => Except.ok ((tbl.map Prod.fst).getLastD "")

/-- A draw lies in the half-open interval a `random.uniform(a, b)` call
samples from (under exact arithmetic). -/
abbrev drawIn (r : ℚ × ℚ) (x : ℚ) : Prop := r.1 ≤ x ∧ x < r.2

/-- Validity of a row's draw oracle: every recorded draw lies in the set the
corresponding `random` call in `generate_row` samples from.  Draws the script
only makes on a conditional path are constrained only on that path. -/
def Draws.Valid (d : Draws) : Prop :=
  d.cityIdx < city_names.length ∧
  d.roomIdx < room_types.length ∧
  drawIn (70, 550) d.areaU ∧
  d.levelIdx < renovation_level_names.length ∧
  drawIn (row_overhead_range d) d.overheadU ∧
  d.paintQIdx < quality_tiers.length ∧
  d.floorQIdx < quality_tiers.length ∧
  d.ceilQIdx < quality_tiers.length ∧
  drawIn painting_psf d.paintBase ∧
  drawIn ((row_cinfo d).laborMin, (row_cinfo d).laborMax) d.paintDayRate ∧
  drawIn productivity_painting d.paintProd ∧
  d.floorTypeIdx < (flooring_choices (row_room_type d)).length ∧
  drawIn (lookupRange flooring_catalog (row_floor_type d)) d.floorBase ∧
  drawIn ((row_cinfo d).laborMin, (row_cinfo d).laborMax) d.floorDayRate ∧
  drawIn productivity_flooring d.floorProd ∧
  drawIn (0, 1) d.ceilFlagU ∧
  d.ceilTypeIdx < ceiling_catalog.length ∧
  drawIn (0.8, 1.05) d.ceilFrac ∧
  (row_has_ceiling d = true →
    drawIn (lookupRange ceiling_catalog (row_ceiling_type d)) d.ceilBase) ∧
  drawIn ((row_cinfo d).laborMin, (row_cinfo d).laborMax) d.ceilDayRate ∧
  drawIn productivity_ceiling d.ceilProd ∧
  drawIn (0, 1) d.elecFlagU ∧
  (row_has_electrical d = true → drawIn electrical_psf d.elecBase) ∧
  drawIn ((row_cinfo d).laborMin, (row_cinfo d).laborMax) d.elecDayRate ∧
  drawIn productivity_electrical d.elecProd ∧
  (row_renov_level d = "Mid" → d.kitchenPkgIdx < 2) ∧
  (row_renov_level d = "Luxury" → d.kitchenPkgIdx < 3) ∧
  d.kitchenQIdx < quality_tiers.length ∧
  (row_room_type d = "Kitchen" →
    drawIn (lookupRange kitchen_packages (row_kitchen_pkg_name d)) d.kitchenBase) ∧
  (row_renov_level d = "Mid" → d.bathPkgIdx < 2) ∧
  (row_renov_level d = "Luxury" → d.bathPkgIdx < 2) ∧
  d.bathQIdx < quality_tiers.length ∧
  (row_room_type d = "Bathroom" →
    drawIn (lookupRange bathroom_packages (row_bath_pkg_name d)) d.bathBase) ∧
  drawIn plumbing_per_kitchen d.plumbKitchenBase ∧
  drawIn plumbing_per_bath d.plumbBathBase ∧
  d.furnIdx < 4 ∧
  (row_furniture_level d ≠ "None" →
    drawIn (lookupRange furniture_room (row_furniture_level d)) d.furnBase) ∧
  drawIn (0.05, 0.10) d.wastageU


/-- A concrete valid draw oracle: Kolkata (multiplier 1.00), Bedroom, area 70,
Basic level, Standard qualities, Epoxy floor, no ceiling, no electrical, no
furniture. -/
def sampleDraws : Draws :=
  { cityIdx := 5, roomIdx := 0, levelIdx := 0,
    paintQIdx := 1, floorQIdx := 1, ceilQIdx := 1,
    floorTypeIdx := 6, ceilTypeIdx := 0,
    kitchenPkgIdx := 0, kitchenQIdx := 0, bathPkgIdx := 0, bathQIdx := 0,
    furnIdx := 0,
    areaU := 70, overheadU := 0.1,
    paintBase := 20, paintDayRate := 600, paintProd := 200,
    floorBase := 100, floorDayRate := 600, floorProd := 100,
    ceilFlagU := 0.7, ceilFrac := 0.9, ceilBase := 100, ceilDayRate := 600,
    ceilProd := 150,
    elecFlagU := 0.5, elecBase := 100, elecDayRate := 600, elecProd := 200,
    kitchenBase := 150000, bathBase := 100000,
    plumbKitchenBase := 30000, plumbBathBase := 50000,
    furnBase := 0, wastageU := 0.05 }

/-- The sample oracle with the room switched to Bathroom. -/
def bathDraws : Draws := { sampleDraws with roomIdx := 3 }

/-- The sample oracle with the Epoxy base rate tuned so that the exact grand
total is 14000.42. -/
def cexDraws : Draws := { sampleDraws with floorBase := 1054302 / 9499 }

/-! Helper lemmas about the rounding model and the static tables. -/

lemma pyRound_nonneg {q : ℚ} (h : 0 ≤ q) : 0 ≤ pyRound q := by
  have hn : (0 : ℤ) ≤ ⌊q⌋ := Int.le_floor.mpr (by exact_mod_cast h)
  unfold pyRound
  split_ifs <;> omega

lemma pyRound_zero : pyRound 0 = 0 := by
  norm_num [pyRound]

lemma pyRound2_nonneg {q : ℚ} (h : 0 ≤ q) : 0 ≤ pyRound2 q := by
  unfold pyRound2
  have h2 : (0 : ℤ) ≤ pyRound (q * 100) := pyRound_nonneg (by positivity)
  have h3 : (0 : ℚ) ≤ (pyRound (q * 100) : ℚ) := by exact_mod_cast h2
  exact div_nonneg h3 (by norm_num)

lemma pyRound3_nonneg {q : ℚ} (h : 0 ≤ q) : 0 ≤ pyRound3 q := by
  unfold pyRound3
  have h2 : (0 : ℤ) ≤ pyRound (q * 1000) := pyRound_nonneg (by positivity)
  have h3 : (0 : ℚ) ≤ (pyRound (q * 1000) : ℚ) := by exact_mod_cast h2
  exact div_nonneg h3 (by norm_num)

lemma pyInt_nonneg {q : ℚ} (h : 0 ≤ q) : 0 ≤ pyInt q := by
  unfold pyInt
  rw [if_pos h]
  exact Int.le_floor.mpr (by exact_mod_cast h)

lemma alist_getD_holds {β : Type} (P : β → Prop) (dflt : β) (h0 : P dflt) :
    ∀ (tbl : List (String × β)), (∀ p ∈ tbl, P p.2) → ∀ k : String,
      P ((alist_get tbl k).getD dflt)
  | [], _, _ => by simpa [alist_get] using h0
  | (a, b) :: t, h, k => by
      by_cases hk : k = a
      · simpa [alist_get, hk] using h (a, b) (by simp)
      · simpa [alist_get, hk] using
          alist_getD_holds P dflt h0 t (fun p hp => h p (by simp [hp])) k

lemma quality_factor_nonneg (k : String) : 0 ≤ quality_factor k := by
  unfold quality_factor
  refine alist_getD_holds _ _ le_rfl quality_tiers ?_ k
  intro p hp
  simp only [quality_tiers] at hp
  fin_cases hp <;> norm_num

lemma lookupRange_fst_nonneg (tbl : List (String × (ℚ × ℚ)))
    (h : ∀ p ∈ tbl, 0 ≤ p.2.1) (k : String) : 0 ≤ (lookupRange tbl k).1 := by
  unfold lookupRange
  exact alist_getD_holds (fun r => 0 ≤ r.1) (0, 0) le_rfl tbl h k

lemma flooring_lo_nonneg (k : String) : 0 ≤ (lookupRange flooring_catalog k).1 := by
  refine lookupRange_fst_nonneg _ ?_ k
  intro p hp
  simp only [flooring_catalog] at hp
  fin_cases hp <;> norm_num

lemma ceiling_lo_nonneg (k : String) : 0 ≤ (lookupRange ceiling_catalog k).1 := by
  refine lookupRange_fst_nonneg _ ?_ k
  intro p hp
  simp only [ceiling_catalog] at hp
  fin_cases hp <;> norm_num

lemma kitchen_lo_nonneg (k : String) : 0 ≤ (lookupRange kitchen_packages k).1 := by
  refine lookupRange_fst_nonneg _ ?_ k
  intro p hp
  simp only [kitchen_packages] at hp
  fin_cases hp <;> norm_num

lemma bathroom_lo_nonneg (k : String) : 0 ≤ (lookupRange bathroom_packages k).1 := by
  refine lookupRange_fst_nonneg _ ?_ k
  intro p hp
  simp only [bathroom_packages] at hp
  fin_cases hp <;> norm_num

lemma furniture_lo_nonneg (k : String) : 0 ≤ (lookupRange furniture_room k).1 := by
  refine lookupRange_fst_nonneg _ ?_ k
  intro p hp
  simp only [furniture_room] at hp
  fin_cases hp <;> norm_num

lemma lookupCity_multiplier_nonneg (k : String) : 0 ≤ (lookupCity k).multiplier := by
  unfold lookupCity
  refine alist_getD_holds (fun c => 0 ≤ c.multiplier) cityFallback
    (by norm_num [cityFallback]) cities ?_ k
  intro p hp
  simp only [cities] at hp
  fin_cases hp <;> norm_num

lemma lookupCity_laborMin_nonneg (k : String) : 0 ≤ (lookupCity k).laborMin := by
  unfold lookupCity
  refine alist_getD_holds (fun c => 0 ≤ c.laborMin) cityFallback
    (by norm_num [cityFallback]) cities ?_ k
  intro p hp
  simp only [cities] at hp
  fin_cases hp <;> norm_num

lemma overhead_lo_nonneg (d : Draws) : 0 ≤ (row_overhead_range d).1 := by
  unfold row_overhead_range
  refine alist_getD_holds (fun r => 0 ≤ r.1) (0, 0) le_rfl renovation_levels ?_ _
  intro p hp
  simp only [renovation_levels] at hp
  fin_cases hp <;> norm_num

lemma labor_component_cost_nonneg {a day p : ℚ} (h : 0 ≤ day) :
    0 ≤ labor_component_cost a day p :=
  mul_nonneg h (le_trans zero_le_one (le_max_left _ _))

lemma psf_cost_nonneg {b q m : ℚ} (hb : 0 ≤ b) (hq : 0 ≤ q) (hm : 0 ≤ m) :
    0 ≤ psf_cost b q m := by
  unfold psf_cost
  exact mul_nonneg (mul_nonneg (mul_nonneg hb hq) hm) (by norm_num [MATERIAL_PRICE_INDEX])

lemma unit_cost_nonneg {b q m : ℚ} (hb : 0 ≤ b) (hq : 0 ≤ q) (hm : 0 ≤ m) :
    0 ≤ unit_cost b q m := by
  unfold unit_cost
  exact mul_nonneg (mul_nonneg (mul_nonneg hb hq) hm) (by norm_num [MATERIAL_PRICE_INDEX])

/-! Evaluation lemmas on the concrete draw oracles. -/

lemma sampleDraws_valid : sampleDraws.Valid := by
  simp [Draws.Valid, drawIn, row_overhead_range, row_renov_level,
    renovation_level_names, renovation_levels, row_cinfo, row_city_name,
    city_names, cities, lookupCity, room_types, row_room_type, row_floor_type,
    choose_flooring_type, flooring_choices, flooring_catalog, lookupRange,
    row_has_ceiling, row_has_electrical, electrical_prob, row_ceiling_type,
    row_kitchen_pkg_name, row_bath_pkg_name, row_furniture_level,
    choose_furniture_level, painting_psf, productivity_painting,
    productivity_flooring, productivity_ceiling, productivity_electrical,
    plumbing_per_kitchen, plumbing_per_bath, ceiling_catalog, kitchen_packages,
    bathroom_packages, furniture_room, quality_tiers, choose_quality,
    choose_ceiling_type, kitchen_package_by_level, bathroom_package_by_level,
    sampleDraws, alist_get]
  norm_num

lemma cexDraws_valid : cexDraws.Valid := by
  simp [Draws.Valid, drawIn, row_overhead_range, row_renov_level,
    renovation_level_names, renovation_levels, row_cinfo, row_city_name,
    city_names, cities, lookupCity, room_types, row_room_type, row_floor_type,
    choose_flooring_type, flooring_choices, flooring_catalog, lookupRange,
    row_has_ceiling, row_has_electrical, electrical_prob, row_ceiling_type,
    row_kitchen_pkg_name, row_bath_pkg_name, row_furniture_level,
    choose_furniture_level, painting_psf, productivity_painting,
    productivity_flooring, productivity_ceiling, productivity_electrical,
    plumbing_per_kitchen, plumbing_per_bath, ceiling_catalog, kitchen_packages,
    bathroom_packages, furniture_room, quality_tiers, choose_quality,
    choose_ceiling_type, kitchen_package_by_level, bathroom_package_by_level,
    cexDraws, sampleDraws, alist_get]
  norm_num

lemma sample_area : row_area sampleDraws = 70 := by
  norm_num [row_area, sampleDraws, pyInt]

lemma cex_area : row_area cexDraws = 70 := by
  norm_num [row_area, cexDraws, sampleDraws, pyInt]

lemma sample_area_ge1 : 1 ≤ (generate_row 1 sampleDraws).Area_Sqft := by
  show (1 : ℤ) ≤ row_area sampleDraws
  rw [sample_area]
  norm_num

lemma cex_grand : grand_total cexDraws = 1400042 / 100 := by
  simp [grand_total, subtotal_pre_tax, gst_amount, INCLUDE_GST, GST_RATE,
    wastage_cost, contractor_overhead, row_labor_overhead_pct, pyRound3,
    material_subtotal, painting_material_cost, flooring_material_cost,
    ceiling_material_cost, electrical_material_cost, kitchen_pkg_cost,
    bath_pkg_cost, plumbing_cost, furniture_cost, painting_rate_psf,
    floor_rate_psf, ceiling_rate_psf, electrical_rate_psf, psf_cost, unit_cost,
    quality_factor, row_paint_quality, row_floor_quality, row_ceiling_quality,
    choose_quality, quality_tiers, row_city_mult, row_cinfo, row_city_name,
    city_names, cities, lookupCity, row_room_type, room_types, row_area, pyInt,
    row_has_ceiling, row_has_electrical, electrical_prob, row_renov_level,
    renovation_level_names, renovation_levels, row_ceiling_area,
    row_floor_type, choose_flooring_type, flooring_choices, flooring_catalog,
    lookupRange, row_furniture_level, choose_furniture_level,
    MATERIAL_PRICE_INDEX, labor_subtotal, painting_labor_cost,
    flooring_labor_cost, ceiling_labor_cost, electrical_labor_cost,
    labor_component_cost, max_def, pyRound, cexDraws, sampleDraws, alist_get]
  norm_num

/-! Claim theorems. -/

/-- C1: for every generated row, the emitted `Grand_Total` equals
`round(subtotal_pre_tax + gst_amount)`, where `subtotal_pre_tax` is the sum of
the material subtotal, wastage, labor subtotal and contractor overhead, the
material subtotal is the sum of the eight unrounded material-side components,
the labor subtotal is the sum of the four unrounded labor components, and the
GST amount is `subtotal_pre_tax * GST_RATE` when tax inclusion is enabled and
`0` otherwise. -/
theorem grand_total_decomposition (idx : ℤ) (d : Draws) :
    (generate_row idx d).Grand_Total = pyRound (subtotal_pre_tax d + gst_amount d) ∧
    subtotal_pre_tax d =
      material_subtotal d + wastage_cost d + labor_subtotal d + contractor_overhead d ∧
    material_subtotal d =
      painting_material_cost d + flooring_material_cost d + ceiling_material_cost d +
        electrical_material_cost d + kitchen_pkg_cost d + bath_pkg_cost d +
        plumbing_cost d + furniture_cost d ∧
    labor_subtotal d =
      painting_labor_cost d + flooring_labor_cost d + ceiling_labor_cost d +
        electrical_labor_cost d ∧
    gst_amount d = (if INCLUDE_GST then subtotal_pre_tax d * GST_RATE else 0) :=
  ⟨rfl, rfl, rfl, rfl, rfl⟩

/-- C10: for every generated row, the city-derived fields `City_Tier`,
`City_Multiplier`, `Labor_Day_Rate_Min` and `Labor_Day_Rate_Max` are exactly
the tier, multiplier and labor day-rate bounds of the `cities` table entry for
the row's emitted `City`. -/
theorem city_fields_consistent (idx : ℤ) (d : Draws) :
    (generate_row idx d).City_Tier = (lookupCity (generate_row idx d).City).tier ∧
    (generate_row idx d).City_Multiplier =
      (lookupCity (generate_row idx d).City).multiplier ∧
    (generate_row idx d).Labor_Day_Rate_Min =
      (lookupCity (generate_row idx d).City).laborMin ∧
    (generate_row idx d).Labor_Day_Rate_Max =
      (lookupCity (generate_row idx d).City).laborMax :=
  ⟨rfl, rfl, rfl, rfl⟩

/-- C3: the whole generation is a pure function of the seed (the seeded PRNG
is modelled as a function `prng` from the seed to the per-row draw stream):
two runs with equal seeds and the same row count produce identical ordered
lists of records, every field of every row equal. -/
theorem generation_deterministic (prng : ℕ → ℕ → Draws) (seed1 seed2 N : ℕ)
    (h : seed1 = seed2) : run N (prng seed1) = run N (prng seed2) := by
  rw [h]

/-- Witness for C3 at a concrete seed, row count and draw stream. -/
theorem generation_deterministic_witness :
    run 3 ((fun _ _ => sampleDraws) 42) = run 3 ((fun _ _ => sampleDraws) 42) :=
  generation_deterministic (fun _ _ => sampleDraws) 42 42 3 rfl

/-- C8: the assembled dataset has exactly `N` records, produced by mapping the
row generator over the indices `1..N` in increasing order, and the `Row_ID`
values are exactly `1..N`; the configured default row count is 10000. -/
theorem dataset_row_ids (N : ℕ) (gen : ℕ → Draws) :
    (run N gen).length = N ∧
    (run N gen).map (fun r => r.Row_ID) = (List.range' 1 N).map Int.ofNat ∧
    N_ROWS = 10000 := by
  refine ⟨?_, ?_, rfl⟩
  · simp [run]
  · simp only [run, List.map_map]
    rfl

/-- C4: a row whose room type is not `"Kitchen"` has a zero kitchen package
cost and kitchen package `"None"`, and symmetrically for `"Bathroom"`. -/
theorem package_gating (idx : ℤ) (d : Draws) :
    ((generate_row idx d).Room_Type ≠ "Kitchen" →
      (generate_row idx d).Kitchen_Package_Cost = 0 ∧
      (generate_row idx d).Kitchen_Package = "None") ∧
    ((generate_row idx d).Room_Type ≠ "Bathroom" →
      (generate_row idx d).Bathroom_Package_Cost = 0 ∧
      (generate_row idx d).Bathroom_Package = "None") := by
  constructor
  · intro h
    have hr : ¬ row_room_type d = "Kitchen" := h
    refine ⟨?_, ?_⟩
    · show pyRound (kitchen_pkg_cost d) = 0
      rw [show kitchen_pkg_cost d = 0 by simp [kitchen_pkg_cost, hr], pyRound_zero]
    · show row_kitchen_pkg_name d = "None"
      simp [row_kitchen_pkg_name, hr]
  · intro h
    have hr : ¬ row_room_type d = "Bathroom" := h
    refine ⟨?_, ?_⟩
    · show pyRound (bath_pkg_cost d) = 0
      rw [show bath_pkg_cost d = 0 by simp [bath_pkg_cost, hr], pyRound_zero]
    · show row_bath_pkg_name d = "None"
      simp [row_bath_pkg_name, hr]

/-- Witness for C4 on a Bedroom row, discharging both room-type hypotheses. -/
theorem package_gating_witness :
    ((generate_row 1 sampleDraws).Kitchen_Package_Cost = 0 ∧
      (generate_row 1 sampleDraws).Kitchen_Package = "None") ∧
    ((generate_row 1 sampleDraws).Bathroom_Package_Cost = 0 ∧
      (generate_row 1 sampleDraws).Bathroom_Package = "None") :=
  ⟨(package_gating 1 sampleDraws).1 (by decide),
   (package_gating 1 sampleDraws).2 (by decide)⟩

/-- C5: a row whose room type is `"Bathroom"` never gets a false ceiling: the
ceiling material and labor costs are `0` and the ceiling type and quality are
`"None"`. -/
theorem bathroom_never_ceiling (idx : ℤ) (d : Draws)
    (h : (generate_row idx d).Room_Type = "Bathroom") :
    (generate_row idx d).Ceiling_Material_Cost = 0 ∧
    (generate_row idx d).Ceiling_Labor_Cost = 0 ∧
    (generate_row idx d).Ceiling_Type = "None" ∧
    (generate_row idx d).Ceiling_Quality = "None" := by
  have hr : row_room_type d = "Bathroom" := h
  have hc : row_has_ceiling d = false := by simp [row_has_ceiling, hr]
  refine ⟨?_, ?_, ?_, ?_⟩
  · show pyRound (ceiling_material_cost d) = 0
    rw [show ceiling_material_cost d = 0 by
          simp [ceiling_material_cost, ceiling_rate_psf, hc], pyRound_zero]
  · show pyRound (ceiling_labor_cost d) = 0
    rw [show ceiling_labor_cost d = 0 by simp [ceiling_labor_cost, hc], pyRound_zero]
  · show row_ceiling_type d = "None"
    simp [row_ceiling_type, hc]
  · show (if row_has_ceiling d then row_ceiling_quality d else "None") = "None"
    simp [hc]

/-- Witness for C5 on a Bathroom row. -/
theorem bathroom_never_ceiling_witness :
    (generate_row 1 bathDraws).Ceiling_Material_Cost = 0 ∧
    (generate_row 1 bathDraws).Ceiling_Labor_Cost = 0 ∧
    (generate_row 1 bathDraws).Ceiling_Type = "None" ∧
    (generate_row 1 bathDraws).Ceiling_Quality = "None" :=
  bathroom_never_ceiling 1 bathDraws (by decide)

/-- C7: for every generated row from valid draws, the emitted `Area_Sqft` is
an integer with `70 ≤ Area_Sqft < 550`. -/
theorem area_bounds (idx : ℤ) (d : Draws) (h : d.Valid) :
    70 ≤ (generate_row idx d).Area_Sqft ∧ (generate_row idx d).Area_Sqft < 550 := by
  obtain ⟨h70, h550⟩ : drawIn (70, 550) d.areaU := h.2.2.1
  have h70q : (70 : ℚ) ≤ d.areaU := h70
  have h550q : d.areaU < 550 := h550
  have h0 : (0 : ℚ) ≤ d.areaU := le_trans (by norm_num) h70q
  constructor
  · show (70 : ℤ) ≤ row_area d
    unfold row_area pyInt
    rw [if_pos h0]
    exact Int.le_floor.mpr (by exact_mod_cast h70q)
  · show row_area d < 550
    unfold row_area pyInt
    rw [if_pos h0]
    exact Int.floor_lt.mpr (by exact_mod_cast h550q)

/-- Witness for C7 at the concrete valid sample draws. -/
theorem area_bounds_witness :
    sampleDraws.Valid ∧ 70 ≤ (generate_row 1 sampleDraws).Area_Sqft ∧
      (generate_row 1 sampleDraws).Area_Sqft < 550 :=
  ⟨sampleDraws_valid, area_bounds 1 sampleDraws sampleDraws_valid⟩

/-- C2 counterexample: a reachable row (valid draws, area 70, exact grand
total 14000.42) whose emitted `Total_Cost_per_Sqft` (it is 200.01, computed
from the unrounded grand total 14000.42 / 70 = 200.006) differs from the
rounded emitted `Grand_Total` 14000 divided by the area and rounded to two
decimals (200.00). -/
theorem cost_per_sqft_rounded_gt_cex :
    cexDraws.Valid ∧ 1 ≤ (generate_row 1 cexDraws).Area_Sqft ∧
    (generate_row 1 cexDraws).Total_Cost_per_Sqft ≠
      pyRound2 (((generate_row 1 cexDraws).Grand_Total : ℚ) /
        ((generate_row 1 cexDraws).Area_Sqft : ℚ)) := by
  refine ⟨cexDraws_valid, ?_, ?_⟩
  · show (1 : ℤ) ≤ row_area cexDraws
    rw [cex_area]
    norm_num
  · show pyRound2 (total_psf cexDraws) ≠
      pyRound2 ((pyRound (grand_total cexDraws) : ℚ) / ((row_area cexDraws : ℚ)))
    unfold total_psf
    rw [cex_grand, cex_area]
    norm_num [pyRound2, pyRound, max_def]

/-- C2 amended: the emitted `Total_Cost_per_Sqft` equals the pre-rounding
grand total (not the rounded, emitted `Grand_Total`) divided by `Area_Sqft`,
rounded to two decimal places, for rows with `Area_Sqft ≥ 1`. -/
theorem cost_per_sqft_unrounded_gt (idx : ℤ) (d : Draws)
    (h : 1 ≤ (generate_row idx d).Area_Sqft) :
    (generate_row idx d).Total_Cost_per_Sqft =
      pyRound2 (grand_total d / ((generate_row idx d).Area_Sqft : ℚ)) := by
  have h0 : (1 : ℤ) ≤ row_area d := h
  have h1 : (1 : ℚ) ≤ ((row_area d : ℚ)) := by exact_mod_cast h0
  show pyRound2 (total_psf d) = _
  unfold total_psf
  rw [max_eq_right h1]
  rfl

/-- Witness for the amended C2 at the concrete sample draws. -/
theorem cost_per_sqft_unrounded_gt_witness :
    1 ≤ (generate_row 1 sampleDraws).Area_Sqft ∧
    (generate_row 1 sampleDraws).Total_Cost_per_Sqft =
      pyRound2 (grand_total sampleDraws / ((generate_row 1 sampleDraws).Area_Sqft : ℚ)) :=
  ⟨sample_area_ge1, cost_per_sqft_unrounded_gt 1 sampleDraws sample_area_ge1⟩

/-- C9 counterexample: with the malformed configuration `N = -3` (a
non-positive row count), the run does not fail with a configuration error: it
returns successfully with an empty dataset. -/
theorem config_validation_cex :
    (-3 : ℤ) ≤ 0 ∧ runE (-3) (fun _ => sampleDraws) = Except.ok [] := by
  constructor
  · norm_num
  · rfl

/-- C9 amended: the implementation performs no configuration validation and
does not fail fast: for every non-positive row count `N` the run completes
successfully and emits an empty dataset instead of raising a configuration
error (and no other executed statement can raise with the shipped tables). -/
theorem run_no_config_validation (N : ℤ) (gen : ℕ → Draws) (h : N ≤ 0) :
    runE N gen = Except.ok [] := by
  simp [runE, pyRange, Int.toNat_of_nonpos h]

/-- Witness for the amended C9 at `N = -5`. -/
theorem run_no_config_validation_witness :
    runE (-5) (fun _ => sampleDraws) = Except.ok [] :=
  run_no_config_validation (-5) (fun _ => sampleDraws) (by norm_num)

/-- C6: for every generated row from valid draws, every cost field (the four
material costs, the four labor costs, the two package costs, plumbing,
furniture, wastage, contractor overhead, GST amount, grand total and cost per
square foot) is nonnegative. -/
theorem cost_fields_nonneg (idx : ℤ) (d : Draws) (h : d.Valid) :
    0 ≤ (generate_row idx d).Painting_Material_Cost ∧
    0 ≤ (generate_row idx d).Painting_Labor_Cost ∧
    0 ≤ (generate_row idx d).Flooring_Material_Cost ∧
    0 ≤ (generate_row idx d).Flooring_Labor_Cost ∧
    0 ≤ (generate_row idx d).Ceiling_Material_Cost ∧
    0 ≤ (generate_row idx d).Ceiling_Labor_Cost ∧
    0 ≤ (generate_row idx d).Electrical_Material_Cost ∧
    0 ≤ (generate_row idx d).Electrical_Labor_Cost ∧
    0 ≤ (generate_row idx d).Kitchen_Package_Cost ∧
    0 ≤ (generate_row idx d).Bathroom_Package_Cost ∧
    0 ≤ (generate_row idx d).Plumbing_Cost ∧
    0 ≤ (generate_row idx d).Furniture_Cost ∧
    0 ≤ (generate_row idx d).Wastage_Sundries_Cost ∧
    0 ≤ (generate_row idx d).Contractor_Overhead_Cost ∧
    0 ≤ (generate_row idx d).GST_Amount ∧
    0 ≤ (generate_row idx d).Grand_Total ∧
    0 ≤ (generate_row idx d).Total_Cost_per_Sqft := by
  obtain ⟨-, -, hArea, -, hOv, -, -, -, hPb, hPd, -, -, hFb, hFd, -, -, -,
    hCfr, hCb, hCd, -, -, hEb, hEd, -, -, -, -, hKb, -, -, -, hBb, hPk, hPb2,
    -, hFu, hW⟩ := h
  have hmult : 0 ≤ row_city_mult d := lookupCity_multiplier_nonneg _
  have hlabmin : 0 ≤ (row_cinfo d).laborMin := lookupCity_laborMin_nonneg _
  have hareaq : (0 : ℚ) ≤ ((row_area d : ℚ)) := by
    have h2 : (0 : ℤ) ≤ row_area d := pyInt_nonneg (le_trans (by norm_num) hArea.1)
    exact_mod_cast h2
  have hPM : 0 ≤ painting_material_cost d :=
    mul_nonneg (psf_cost_nonneg (le_trans (by norm_num [painting_psf]) hPb.1)
      (quality_factor_nonneg _) hmult) hareaq
  have hPL : 0 ≤ painting_labor_cost d :=
    labor_component_cost_nonneg (le_trans hlabmin hPd.1)
  have hFM : 0 ≤ flooring_material_cost d :=
    mul_nonneg (psf_cost_nonneg (le_trans (flooring_lo_nonneg _) hFb.1)
      (quality_factor_nonneg _) hmult) hareaq
  have hFL : 0 ≤ flooring_labor_cost d :=
    labor_component_cost_nonneg (le_trans hlabmin hFd.1)
  have hCM : 0 ≤ ceiling_material_cost d := by
    unfold ceiling_material_cost ceiling_rate_psf row_ceiling_area
    cases hcl : row_has_ceiling d
    · simp
    · simp only [if_pos rfl]
      have hb : 0 ≤ d.ceilBase := le_trans (ceiling_lo_nonneg _) (hCb hcl).1
      have harea2 : (0 : ℚ) ≤ ((pyInt ((row_area d : ℚ) * d.ceilFrac) : ℚ)) := by
        have h2 : (0 : ℤ) ≤ pyInt ((row_area d : ℚ) * d.ceilFrac) :=
          pyInt_nonneg (mul_nonneg hareaq (le_trans (by norm_num) hCfr.1))
        exact_mod_cast h2
      exact mul_nonneg (psf_cost_nonneg hb (quality_factor_nonneg _) hmult) harea2
  have hCL : 0 ≤ ceiling_labor_cost d := by
    unfold ceiling_labor_cost
    cases hcl : row_has_ceiling d
    · simp
    · simp only [if_pos rfl]
      exact labor_component_cost_nonneg (le_trans hlabmin hCd.1)
  have hEM : 0 ≤ electrical_material_cost d := by
    unfold electrical_material_cost electrical_rate_psf
    cases hel : row_has_electrical d
    · simp
    · simp only [if_pos rfl]
      have hb : 0 ≤ d.elecBase :=
        le_trans (by norm_num [electrical_psf]) (hEb hel).1
      exact mul_nonneg (psf_cost_nonneg hb (by norm_num) hmult) hareaq
  have hEL : 0 ≤ electrical_labor_cost d := by
    unfold electrical_labor_cost
    cases hel : row_has_electrical d
    · simp
    · simp only [if_pos rfl]
      exact labor_component_cost_nonneg (le_trans hlabmin hEd.1)
  have hK : 0 ≤ kitchen_pkg_cost d := by
    unfold kitchen_pkg_cost
    by_cases hk : row_room_type d = "Kitchen"
    · rw [if_pos hk]
      exact unit_cost_nonneg (le_trans (kitchen_lo_nonneg _) (hKb hk).1)
        (quality_factor_nonneg _) hmult
    · simp [hk]
  have hB : 0 ≤ bath_pkg_cost d := by
    unfold bath_pkg_cost
    by_cases hk : row_room_type d = "Bathroom"
    · rw [if_pos hk]
      exact unit_cost_nonneg (le_trans (bathroom_lo_nonneg _) (hBb hk).1)
        (quality_factor_nonneg _) hmult
    · simp [hk]
  have hP : 0 ≤ plumbing_cost d := by
    unfold plumbing_cost
    have c1 : 0 ≤ d.plumbKitchenBase :=
      le_trans (by norm_num [plumbing_per_kitchen]) hPk.1
    have c2 : 0 ≤ d.plumbBathBase :=
      le_trans (by norm_num [plumbing_per_bath]) hPb2.1
    refine add_nonneg ?_ ?_
    · by_cases hk : row_room_type d = "Kitchen"
      · rw [if_pos hk]
        exact unit_cost_nonneg c1 (by norm_num) hmult
      · simp [hk]
    · by_cases hk : row_room_type d = "Bathroom"
      · rw [if_pos hk]
        exact unit_cost_nonneg c2 (by norm_num) hmult
      · simp [hk]
  have hF : 0 ≤ furniture_cost d := by
    unfold furniture_cost
    by_cases hf : row_furniture_level d ≠ "None"
    · rw [if_pos hf]
      exact unit_cost_nonneg (le_trans (furniture_lo_nonneg _) (hFu hf).1)
        (by norm_num) hmult
    · simp [hf]
  have hM : 0 ≤ material_subtotal d :=
    add_nonneg (add_nonneg (add_nonneg (add_nonneg (add_nonneg (add_nonneg
      (add_nonneg hPM hFM) hCM) hEM) hK) hB) hP) hF
  have hW0 : 0 ≤ wastage_cost d := mul_nonneg hM (le_trans (by norm_num) hW.1)
  have hL : 0 ≤ labor_subtotal d :=
    add_nonneg (add_nonneg (add_nonneg hPL hFL) hCL) hEL
  have hOv0 : 0 ≤ row_labor_overhead_pct d :=
    pyRound3_nonneg (le_trans (overhead_lo_nonneg d) hOv.1)
  have hO : 0 ≤ contractor_overhead d := mul_nonneg (add_nonneg hM hL) hOv0
  have hS : 0 ≤ subtotal_pre_tax d :=
    add_nonneg (add_nonneg (add_nonneg hM hW0) hL) hO
  have hG : 0 ≤ gst_amount d := by
    unfold gst_amount
    split_ifs
    · exact mul_nonneg hS (by norm_num [GST_RATE])
    · exact le_refl 0
  have hGT : 0 ≤ grand_total d := add_nonneg hS hG
  have hPSF : 0 ≤ total_psf d := by
    unfold total_psf
    exact div_nonneg hGT (le_trans zero_le_one (le_max_left _ _))
  exact ⟨pyRound_nonneg hPM, pyRound_nonneg hPL, pyRound_nonneg hFM,
    pyRound_nonneg hFL, pyRound_nonneg hCM, pyRound_nonneg hCL,
    pyRound_nonneg hEM, pyRound_nonneg hEL, pyRound_nonneg hK,
    pyRound_nonneg hB, pyRound_nonneg hP, pyRound_nonneg hF,
    pyRound_nonneg hW0, pyRound_nonneg hO, pyRound_nonneg hG,
    pyRound_nonneg hGT, pyRound2_nonneg hPSF⟩

/-- Witness for C6 at the concrete valid sample draws. -/
theorem cost_fields_nonneg_witness :
    sampleDraws.Valid ∧
    (0 ≤ (generate_row 1 sampleDraws).Painting_Material_Cost ∧
    0 ≤ (generate_row 1 sampleDraws).Painting_Labor_Cost ∧
    0 ≤ (generate_row 1 sampleDraws).Flooring_Material_Cost ∧
    0 ≤ (generate_row 1 sampleDraws).Flooring_Labor_Cost ∧
    0 ≤ (generate_row 1 sampleDraws).Ceiling_Material_Cost ∧
    0 ≤ (generate_row 1 sampleDraws).Ceiling_Labor_Cost ∧
    0 ≤ (generate_row 1 sampleDraws).Electrical_Material_Cost ∧
    0 ≤ (generate_row 1 sampleDraws).Electrical_Labor_Cost ∧
    0 ≤ (generate_row 1 sampleDraws).Kitchen_Package_Cost ∧
    0 ≤ (generate_row 1 sampleDraws).Bathroom_Package_Cost ∧
    0 ≤ (generate_row 1 sampleDraws).Plumbing_Cost ∧
    0 ≤ (generate_row 1 sampleDraws).Furniture_Cost ∧
    0 ≤ (generate_row 1 sampleDraws).Wastage_Sundries_Cost ∧
    0 ≤ (generate_row 1 sampleDraws).Contractor_Overhead_Cost ∧
    0 ≤ (generate_row 1 sampleDraws).GST_Amount ∧
    0 ≤ (generate_row 1 sampleDraws).Grand_Total ∧
    0 ≤ (generate_row 1 sampleDraws).Total_Cost_per_Sqft) :=
  ⟨sampleDraws_valid, cost_fields_nonneg 1 sampleDraws sampleDraws_valid⟩
